import Mathlib

/-!
Shallow embedding of the transaction-graph pipeline of
`codebase/entity_connexion.py` (EntityConnexion and the module level
account-to-holder mapping), together with theorems settling the frozen
claims about it.

Conventions of the embedding:
* pandas DataFrames become lists of typed row structures;
* nullable cells (NaN) become `Option` values;
* Python exceptions become `Except PyError`; `PyError` also lists the
  error names of the design document's taxonomy (NotFoundError,
  IntegrityError, NotImplementedError) so that statements comparing the
  code's actual error against the taxonomy's name are expressible;
* in-place mutation of `self.transactions` is modelled as a state update
  on an `EntityConnexion` record.
-/

/-- Python exception kinds observable in this module, plus the error names
of the design document's taxonomy (never raised by the code itself). -/
inductive PyError
  | valueError
  | indexError
  | attributeError
  | assertionError
  | keyError
  | notFoundError
  | integrityError
  | notImplementedError
deriving DecidableEq

deriving instance DecidableEq for Except

/-- The entity kinds accepted by `EntityConnexion.__init__`. -/
inductive EntityType
  | Account
  | AccountHolder
  | Company
deriving DecidableEq

/-- An entity id as passed by callers: an integer (accounts, holders) or a
string (company registration numbers). -/
inductive EntityIdVal
  | int (n : Int)
  | str (s : String)
deriving DecidableEq

/-- A row of the `Account` repository table: the columns this module reads. -/
structure AccountRec where
  id : Int
  name : Option String
  accountHolder_id : Option Int
  companyRegistrationNumber : Option String
deriving DecidableEq

/-- A row of the `AccountHolder` repository table. -/
structure HolderRec where
  id : Int
  name : Option String
deriving DecidableEq

/-- A row of the module-level `account_to_accountHolder` mapping DataFrame
(columns `account_id`, `accountHolder_id`, `accountHolder_name`); the holder
id is an `Int` because the code applies `.astype(int)` after `dropna`. -/
structure MappingRow where
  account_id : Int
  accountHolder_id : Int
  accountHolder_name : Option String
deriving DecidableEq

/-- The function `map_account_to_accountHolder`: select `(id, accountHolder_id)`
from the accounts, `dropna` (drop accounts with a null holder id), rename
`id` to `account_id`, then merge (pandas default: inner join) with the
`(accountHolder_id, accountHolder_name)` table on `accountHolder_id`.
When the holder repository is empty, `pd.DataFrame([])` built from the
empty holder query has no columns at all, so the merge
`on="accountHolder_id"` raises KeyError; otherwise the inner join keeps
exactly the accounts whose holder id has a match. -/
def map_account_to_accountHolder (accounts : List AccountRec) (holders : List HolderRec) :
    Except PyError (List MappingRow) :=
  if holders.isEmpty then .error .keyError
  else
    .ok ((accounts.filterMap (fun a => a.accountHolder_id.map (fun h => (a.id, h)))).flatMap
      (fun p => (holders.filter (fun hr => decide (hr.id = p.2))).map
        (fun hr => { account_id := p.1, accountHolder_id := p.2, accountHolder_name := hr.name })))

/-- The method `EntityConnexion.get_accounts`: filter the account repository
by the kind-specific predicate and look up the display name.  For kind
`Account` the name is `self.accounts[0].name`: indexing an empty list raises
IndexError.  For kind `AccountHolder` the name is
`query(...).first().name`: `first()` returns `None` when no holder matches,
so the attribute access raises AttributeError. -/
def get_accounts (et : EntityType) (eid : EntityIdVal)
    (accounts : List AccountRec) (holders : List HolderRec) :
    Except PyError (List AccountRec × Option String) :=
  match et with
  | .Account =>
    match accounts.filter (fun a => decide (eid = EntityIdVal.int a.id)) with
    | [] => .error .indexError
    | a :: rest => .ok (a :: rest, a.name)
  | .AccountHolder =>
    match holders.find? (fun hr => decide (eid = EntityIdVal.int hr.id)) with
    | none => .error .attributeError
    | some hr =>
      .ok (accounts.filter (fun a => decide (a.accountHolder_id.map EntityIdVal.int = some eid)),
           hr.name)
  | .Company =>
    .ok (accounts.filter (fun a => decide (a.companyRegistrationNumber.map EntityIdVal.str = some eid)),
         some "")

/-- A raw per-account transaction row, restricted to the `column_list`
selected at the start of `get_transactions` (the endpoints still carry
account ids and names). -/
structure TxRow where
  datetime : Int
  amount : Int
  transferringAccount_id : Option Int
  transferringAccountName : Option String
  transferringAccountType : Option String
  acquiringAccount_id : Option Int
  acquiringAccountName : Option String
  acquiringAccountType : Option String
  transactionTypeMain : Option String
  transactionTypeSupplementary : Option String
  unitType : Option String
deriving DecidableEq

/-- A normalized transaction row: endpoints re-keyed to
`(Entity_id, Entity_name, Entity_type)` at the requested granularity. -/
structure NormRow where
  datetime : Int
  amount : Int
  transferringEntity_id : Option Int
  transferringEntity_name : Option String
  transferringEntity_type : Option String
  acquiringEntity_id : Option Int
  acquiringEntity_name : Option String
  acquiringEntity_type : Option String
  transactionTypeMain : Option String
  transactionTypeSupplementary : Option String
  unitType : Option String
deriving DecidableEq

/-- The behaviour of `pd.concat` on the list of per-account transaction
tables (each `none` when `account.get_transactions()` returned `None`):
pandas raises ValueError on an empty argument list
("No objects to concatenate"), silently drops `None` entries, and raises
ValueError again when nothing remains ("All objects passed were None"). -/
def pd_concat (tables : List (Option (List TxRow))) : Except PyError (List TxRow) :=
  if tables.isEmpty then .error .valueError
  else if (tables.filterMap id).isEmpty then .error .valueError
  else .ok (tables.filterMap id).flatten

/-- Identity re-key at Account granularity: the rename of
`{side}Account_id/Name/Type` to `{side}Entity_id/name/type` moves each
column unchanged. -/
def renameAccountToEntity (r : TxRow) : NormRow :=
  { datetime := r.datetime
    amount := r.amount
    transferringEntity_id := r.transferringAccount_id
    transferringEntity_name := r.transferringAccountName
    transferringEntity_type := r.transferringAccountType
    acquiringEntity_id := r.acquiringAccount_id
    acquiringEntity_name := r.acquiringAccountName
    acquiringEntity_type := r.acquiringAccountType
    transactionTypeMain := r.transactionTypeMain
    transactionTypeSupplementary := r.transactionTypeSupplementary
    unitType := r.unitType }

/-- One row of the transaction table after the two left merges against the
account-to-holder mapping: the raw row plus the transferring-side and
acquiring-side matches (`none` when the merge indicator was `left_only`). -/
structure MergedRow where
  raw : TxRow
  mt : Option MappingRow
  ma : Option MappingRow
deriving DecidableEq

/-- Matches of one side's account id in the mapping table, as produced by a
pandas left merge for a single left row: one `none` row when no mapping row
matches (indicator `left_only`), otherwise one row per match.  A null
account id matches nothing (NaN keys never join). -/
def mergeSideMatches (m : List MappingRow) (acct : Option Int) : List (Option MappingRow) :=
  match m.filter (fun x => decide (acct = some x.account_id)) with
  | [] => [none]
  | ms => ms.map some

/-- The two successive left merges of `get_transactions` at AccountHolder
granularity, row by row: first on the transferring account id, then on the
acquiring account id. -/
def mergeBoth (tbl : List TxRow) (m : List MappingRow) : List MergedRow :=
  tbl.flatMap (fun r =>
    (mergeSideMatches m r.transferringAccount_id).flatMap (fun mt =>
      (mergeSideMatches m r.acquiringAccount_id).map (fun ma =>
        { raw := r, mt := mt, ma := ma })))

/-- Column content of a merged row after dropping the account-level columns,
renaming `{side}AccountHolder_id/name` to `{side}Entity_id/name`, and setting
`{side}Entity_type` to `np.nan`. -/
def toNormHolder (q : MergedRow) : NormRow :=
  { datetime := q.raw.datetime
    amount := q.raw.amount
    transferringEntity_id := q.mt.map (fun x => x.accountHolder_id)
    transferringEntity_name := q.mt.bind (fun x => x.accountHolder_name)
    transferringEntity_type := none
    acquiringEntity_id := q.ma.map (fun x => x.accountHolder_id)
    acquiringEntity_name := q.ma.bind (fun x => x.accountHolder_name)
    acquiringEntity_type := none
    transactionTypeMain := q.raw.transactionTypeMain
    transactionTypeSupplementary := q.raw.transactionTypeSupplementary
    unitType := q.raw.unitType }

/-- The pandas inequality used by the self-trade filter
`acquiringAccountHolder_id != transferringAccountHolder_id`: comparisons
against NaN yield True for `!=`. -/
def pdNe (a b : Option Int) : Bool :=
  match a, b with
  | some x, some y => decide (x ≠ y)
  | _, _ => true

/-- The AccountHolder branch of `get_transactions`: merge both sides against
the account-to-holder mapping, assert that every row matched on each side
(`assert (transactions[side_mapped] == "both").all()`, AssertionError
otherwise), then keep only rows whose acquiring holder differs from the
transferring holder, with holder columns renamed to entity columns. -/
def rekeyAccountHolder (tbl : List TxRow) (m : List MappingRow) :
    Except PyError (List NormRow) :=
  if (mergeBoth tbl m).all (fun q => q.mt.isSome) then
    if (mergeBoth tbl m).all (fun q => q.ma.isSome) then
      .ok (((mergeBoth tbl m).map toNormHolder).filter
        (fun r => pdNe r.acquiringEntity_id r.transferringEntity_id))
    else .error .assertionError
  else .error .assertionError

/-- The table stored in `self.transactions` at the end of
`get_transactions`: at Account and AccountHolder granularity the columns
have been renamed to entity columns, while the Company branch is `pass`,
so the raw account-level rows are stored unchanged. -/
inductive StoredTable
  | accountRows (rows : List TxRow)
  | entityRows (rows : List NormRow)
deriving DecidableEq

/-- The method `EntityConnexion.get_transactions`: collect each account's
transaction table, return early (leaving `self.transactions` as `None`,
modelled by `.ok none`) when there is exactly one table and it is `None`,
otherwise `pd.concat` them and dispatch on the entity kind.  The required
columns are always present in this typed embedding, so the schema-warning
early return cannot fire. -/
def get_transactions (et : EntityType) (tables : List (Option (List TxRow)))
    (m : List MappingRow) : Except PyError (Option StoredTable) :=
  if tables.length = 1 ∧ tables.head? = some none then .ok none
  else
    match pd_concat tables with
    | .error e => .error e
    | .ok transactions =>
      match et with
      | .Account => .ok (some (.entityRows (transactions.map renameAccountToEntity)))
      | .AccountHolder =>
        match rekeyAccountHolder transactions m with
        | .error e => .error e
        | .ok rows => .ok (some (.entityRows rows))
      | .Company => .ok (some (.accountRows transactions))

/-- Effect of `transaction_table.fillna(value=fillval, inplace=True)` on one
row, where `fillval` names only the three transferring-side columns (it is
the same dict for both iterations of the loop over sides): a null
transferring id becomes `-1`, null transferring name and type become
`"unknown"`, and the acquiring-side columns are untouched. -/
def fillTransferringRow (r : NormRow) : NormRow :=
  { r with
    transferringEntity_id := some (r.transferringEntity_id.getD (-1))
    transferringEntity_name := some (r.transferringEntity_name.getD "unknown")
    transferringEntity_type := some (r.transferringEntity_type.getD "unknown") }

/-- Iteration `side = transferring` of the missing-value loop of
`plot_arrows`: if the transferring entity-id column contains a null, warn
and apply `fillna` with `fillval` to the whole table. -/
def fillStepTransferring (tbl : List NormRow) : List NormRow :=
  if tbl.any (fun r => r.transferringEntity_id.isNone)
  then tbl.map fillTransferringRow else tbl

/-- Iteration `side = acquiring` of the missing-value loop of
`plot_arrows`: the null test reads the acquiring entity-id column, but the
`fillval` dict passed to `fillna` still names only the transferring-side
columns. -/
def fillStepAcquiring (tbl : List NormRow) : List NormRow :=
  if tbl.any (fun r => r.acquiringEntity_id.isNone)
  then tbl.map fillTransferringRow else tbl

/-- The whole missing-value loop at the start of `plot_arrows`: the
transferring iteration followed by the acquiring iteration. -/
def plotArrowsFill (tbl : List NormRow) : List NormRow :=
  fillStepAcquiring (fillStepTransferring tbl)

/-- An edge key of the directed transaction graph: the ordered pair of the
transferring and acquiring entity ids of a row. -/
abbrev EdgeKey := Option Int × Option Int

/-- Edge key of a normalized row. -/
def rowKey (r : NormRow) : EdgeKey :=
  (r.transferringEntity_id, r.acquiringEntity_id)

/-- Effect of `DiGraph.add_edge(u, v, amount=w)` on the edge list: when the
edge already exists its `amount` attribute is overwritten, otherwise the
edge is appended. -/
def upsertEdge : List (EdgeKey × Int) → EdgeKey → Int → List (EdgeKey × Int)
  | [], k, w => [(k, w)]
  | e :: es, k, w => if e.1 = k then (k, w) :: es else e :: upsertEdge es k w

/-- The call `nx.from_pandas_edgelist(transaction_table,
source=transferringEntity_id, target=acquiringEntity_id,
edge_attr=amount, create_using=nx.DiGraph())`: one `add_edge` per row, in
row order. -/
def from_pandas_edgelist (tbl : List NormRow) : List (EdgeKey × Int) :=
  tbl.foldl (fun g r => upsertEdge g (rowKey r) r.amount) []

/-- The `amount` attribute stored on edge `k` of the built graph. -/
def edgeWeight (g : List (EdgeKey × Int)) (k : EdgeKey) : Option Int :=
  (g.find? (fun e => decide (e.1 = k))).map (fun e => e.2)

/-- Amount of the last row of the table whose ordered endpoint pair is `k`,
if any. -/
def lastAmount : List NormRow → EdgeKey → Option Int
  | [], _ => none
  | r :: ts, k =>
    match lastAmount ts k with
    | some w => some w
    | none => if rowKey r = k then some r.amount else none

/-- Exact sum of `amount` over all rows whose ordered endpoint pair is `k`
(what the design document asserts the edge weight to be). -/
def pairAmountSum (tbl : List NormRow) (k : EdgeKey) : Int :=
  ((tbl.filter (fun r => decide (rowKey r = k))).map (fun r => r.amount)).sum

/-- Node insertion as performed by `add_edge`: a node is appended on first
occurrence. -/
def insertNode (ns : List (Option Int)) (x : Option Int) : List (Option Int) :=
  if x ∈ ns then ns else ns ++ [x]

/-- The node list of the graph built by `from_pandas_edgelist`: for each row
in order, the source then the target endpoint, each added on first
occurrence.  Nothing else is ever added: in particular the focal entity is
not inserted. -/
def graphNodes (tbl : List NormRow) : List (Option Int) :=
  tbl.foldl
    (fun ns r => insertNode (insertNode ns r.transferringEntity_id) r.acquiringEntity_id)
    []

/-- Python set membership `node in set(column)` for an entity-id value: a
NaN node (modelled `none`) matches nothing, because `NaN != NaN` on the
float values extracted from an id column; a non-null node matches exactly
the cells holding the same number (and no NaN cell). -/
def pdMemId (x : Option Int) (l : List (Option Int)) : Bool :=
  match x with
  | none => false
  | some v => l.any (fun y => decide (y = some v))

/-- Python equality `node == this_node` between a node value and the focal
entity id: NaN compares unequal to everything. -/
def pdEqId (a b : Option Int) : Bool :=
  match a, b with
  | some x, some y => decide (x = y)
  | _, _ => false

/-- The role computed by the `elif` chain of the node loop of `plot_arrows`
from `trans_entities = set(transferringEntity_id column)` and
`acqui_entities = set(acquiringEntity_id column)`; `none` models a node for
which none of the branches fires, leaving `trader_type` unset — this is
what happens to a NaN node, which belongs to neither set. -/
def traderTypeBase (tbl : List NormRow) (node : Option Int) : Option String :=
  if pdMemId node (tbl.map (fun r => r.transferringEntity_id))
      && pdMemId node (tbl.map (fun r => r.acquiringEntity_id)) then some "trader"
  else if pdMemId node (tbl.map (fun r => r.transferringEntity_id)) then some "sender"
  else if pdMemId node (tbl.map (fun r => r.acquiringEntity_id)) then some "receiver"
  else none

/-- The final `trader_type` attribute of a node: the focal entity's id
(`node == this_node`) overrides whatever the `elif` chain computed; for a
NaN node the override never fires (`NaN == id` is false). -/
def traderType (tbl : List NormRow) (focal node : Option Int) : Option String :=
  if pdEqId node focal then some "this" else traderTypeBase tbl node

/-- Observable outcome of `plot_arrows` when it does not raise:
`noTable` is the early return on `self.transactions is None`, `tooLarge`
the early return on more than 40 nodes, and `plotted` carries the node
list, the per-node roles and the weighted edge list actually drawn. -/
inductive PlotOutcome
  | noTable
  | tooLarge
  | plotted (nodes : List (Option Int)) (roles : List (Option String))
      (edges : List (EdgeKey × Int))
deriving DecidableEq

/-- The method `EntityConnexion.plot_arrows`, as the function from the
stored table and the focal entity id to its observable outcome.  After the
missing-value fill and the graph construction: more than 40 nodes returns
early; `max_width = max(amount of the edges)` raises ValueError on a graph
with no edges; the list comprehension `attrs[n]['trader_type']` raises
KeyError when some node was assigned no role by the `elif` chain (a NaN
node); and `list_of_nodes.remove(this_node)` raises ValueError when the
focal id is not a node of the graph. -/
def plot_arrows (stored : Option (List NormRow)) (focal : Option Int) :
    Except PyError PlotOutcome :=
  match stored with
  | none => .ok .noTable
  | some tbl0 =>
    let tbl := plotArrowsFill tbl0
    if (graphNodes tbl).length > 40 then .ok .tooLarge
    else if (from_pandas_edgelist tbl).isEmpty then .error .valueError
    else if (graphNodes tbl).any (fun n => (traderType tbl focal n).isNone) then
      .error .keyError
    else if focal ∈ graphNodes tbl then
      .ok (.plotted (graphNodes tbl)
        ((graphNodes tbl).map (traderType tbl focal))
        (from_pandas_edgelist tbl))
    else .error .valueError

/-- The slice of `EntityConnexion` state that `plot_arrows` can mutate. -/
structure EntityConnexion where
  transactions : Option (List NormRow)
deriving DecidableEq

/-- Frame effect of `plot_arrows` on the object: `transaction_table` is an
alias of `self.transactions` and `fillna(..., inplace=True)` mutates it, so
after the call the stored table is the filled table; nothing else in the
method writes to the object. -/
def plot_arrows_store (s : EntityConnexion) : EntityConnexion :=
  { transactions := s.transactions.map plotArrowsFill }

/-- Test fixture: a normalized row with the given endpoints and amount. -/
def mkNormRow (t a : Option Int) (amt : Int) : NormRow :=
  { datetime := 0
    amount := amt
    transferringEntity_id := t
    transferringEntity_name := some "T"
    transferringEntity_type := some "x"
    acquiringEntity_id := a
    acquiringEntity_name := some "A"
    acquiringEntity_type := some "x"
    transactionTypeMain := none
    transactionTypeSupplementary := none
    unitType := none }

/-- Test fixture: two rows with the same ordered endpoint pair. -/
def rowE1 : NormRow := mkNormRow (some 1) (some 2) 5

/-- Test fixture: second row of the same ordered pair, different amount. -/
def rowE2 : NormRow := mkNormRow (some 1) (some 2) 7

/-- Test fixture: a row whose acquiring entity id is null. -/
def rowNullA : NormRow := mkNormRow (some 1) none 5

/-- Test fixture: a row whose transferring entity id is null. -/
def rowNullT : NormRow := mkNormRow none (some 2) 5

/-- Test fixture: a raw transaction row from account 1 to account 2. -/
def txRowW : TxRow :=
  { datetime := 0
    amount := 5
    transferringAccount_id := some 1
    transferringAccountName := some "T"
    transferringAccountType := some "x"
    acquiringAccount_id := some 2
    acquiringAccountName := some "A"
    acquiringAccountType := some "x"
    transactionTypeMain := none
    transactionTypeSupplementary := none
    unitType := none }

/-- Test fixture: a mapping sending account 1 to holder 10 and account 2 to
holder 20. -/
def mapW : List MappingRow :=
  [{ account_id := 1, accountHolder_id := 10, accountHolder_name := some "H1" },
   { account_id := 2, accountHolder_id := 20, accountHolder_name := some "H2" }]

/-- Test fixture: the normalized row produced from `txRowW` under `mapW`. -/
def nW : NormRow :=
  toNormHolder
    { raw := txRowW
      mt := some { account_id := 1, accountHolder_id := 10, accountHolder_name := some "H1" }
      ma := some { account_id := 2, accountHolder_id := 20, accountHolder_name := some "H2" } }

/-- Test fixture: an account whose holder id is 5. -/
def accW3 : List AccountRec :=
  [{ id := 1, name := some "n", accountHolder_id := some 5, companyRegistrationNumber := none }]

/-- Test fixture: a holder repository containing holder 5. -/
def holdW3 : List HolderRec := [{ id := 5, name := some "H" }]

/-- Test fixture: the mapping row produced from `accW3` and `holdW3`. -/
def rowW3 : MappingRow :=
  { account_id := 1, accountHolder_id := 5, accountHolder_name := some "H" }

lemma edgeWeight_nil (k : EdgeKey) : edgeWeight [] k = none := rfl

lemma edgeWeight_cons (e : EdgeKey × Int) (g : List (EdgeKey × Int)) (k : EdgeKey) :
    edgeWeight (e :: g) k = if e.1 = k then some e.2 else edgeWeight g k := by
  by_cases h : e.1 = k
  · simp [edgeWeight, List.find?_cons_of_pos, h]
  · simp [edgeWeight, List.find?_cons_of_neg, h]

lemma edgeWeight_upsert_self (g : List (EdgeKey × Int)) (k : EdgeKey) (w : Int) :
    edgeWeight (upsertEdge g k w) k = some w := by
  induction g with
  | nil => simp [upsertEdge, edgeWeight_cons]
  | cons e es ih =>
    by_cases h : e.1 = k
    · simp [upsertEdge, h, edgeWeight_cons]
    · rw [upsertEdge, if_neg h, edgeWeight_cons, if_neg h]
      exact ih

lemma edgeWeight_upsert_ne (g : List (EdgeKey × Int)) {k k' : EdgeKey}
    (h : k' ≠ k) (w : Int) :
    edgeWeight (upsertEdge g k' w) k = edgeWeight g k := by
  induction g with
  | nil => simp [upsertEdge, edgeWeight_cons, edgeWeight_nil, h]
  | cons e es ih =>
    by_cases he : e.1 = k'
    · rw [upsertEdge, if_pos he, edgeWeight_cons, edgeWeight_cons]
      have hek : ¬ e.1 = k := fun hc => h (he ▸ hc)
      rw [if_neg hek, if_neg (show ¬ (k', w).1 = k from h)]
    · rw [upsertEdge, if_neg he, edgeWeight_cons, edgeWeight_cons]
      by_cases hek : e.1 = k
      · rw [if_pos hek, if_pos hek]
      · rw [if_neg hek, if_neg hek]
        exact ih

lemma edgeWeight_foldl (tbl : List NormRow) (g : List (EdgeKey × Int)) (k : EdgeKey) :
    edgeWeight (tbl.foldl (fun g r => upsertEdge g (rowKey r) r.amount) g) k
      = match lastAmount tbl k with
        | some w => some w
        | none => edgeWeight g k := by
  induction tbl generalizing g with
  | nil => simp [lastAmount]
  | cons r ts ih =>
    rw [List.foldl_cons, ih]
    by_cases h : rowKey r = k
    · cases hts : lastAmount ts k with
      | some w => simp [lastAmount, hts]
      | none => simp [lastAmount, hts, h, edgeWeight_upsert_self]
    · cases hts : lastAmount ts k with
      | some w => simp [lastAmount, hts]
      | none => simp [lastAmount, hts, h, edgeWeight_upsert_ne _ h]

lemma mem_insertNode {ns : List (Option Int)} {x y : Option Int} :
    y ∈ insertNode ns x ↔ y ∈ ns ∨ y = x := by
  unfold insertNode
  by_cases h : x ∈ ns
  · simp only [if_pos h]
    exact ⟨Or.inl, fun hy => hy.elim id (fun he => he ▸ h)⟩
  · simp [if_neg h, List.mem_append]

lemma mem_graphNodes_fold (tbl : List NormRow) (ns : List (Option Int)) (x : Option Int) :
    x ∈ tbl.foldl
        (fun ns r => insertNode (insertNode ns r.transferringEntity_id) r.acquiringEntity_id)
        ns
      ↔ x ∈ ns ∨ ∃ r, r ∈ tbl ∧
          (x = r.transferringEntity_id ∨ x = r.acquiringEntity_id) := by
  induction tbl generalizing ns with
  | nil => simp
  | cons r ts ih =>
    rw [List.foldl_cons, ih]
    simp only [mem_insertNode, List.mem_cons]
    constructor
    · rintro (((h | h) | h) | ⟨s, hs, h⟩)
      · exact Or.inl h
      · exact Or.inr ⟨r, Or.inl rfl, Or.inl h⟩
      · exact Or.inr ⟨r, Or.inl rfl, Or.inr h⟩
      · exact Or.inr ⟨s, Or.inr hs, h⟩
    · rintro (h | ⟨s, hs | hs, h⟩)
      · exact Or.inl (Or.inl (Or.inl h))
      · subst hs
        exact h.elim (fun h => Or.inl (Or.inl (Or.inr h))) (fun h => Or.inl (Or.inr h))
      · exact Or.inr ⟨s, hs, h⟩

lemma mem_graphNodes {tbl : List NormRow} {x : Option Int} :
    x ∈ graphNodes tbl
      ↔ ∃ r, r ∈ tbl ∧ (x = r.transferringEntity_id ∨ x = r.acquiringEntity_id) := by
  simpa using mem_graphNodes_fold tbl [] x

lemma pd_concat_all_none {tables : List (Option (List TxRow))}
    (h : tables.all (fun t => t.isNone) = true) :
    pd_concat tables = .error .valueError := by
  unfold pd_concat
  cases tables with
  | nil => rfl
  | cons t ts =>
    have hfm : (t :: ts).filterMap id = [] := by
      rw [List.filterMap_eq_nil_iff]
      intro a ha
      exact Option.isNone_iff_eq_none.mp (List.all_eq_true.mp h a ha)
    simp [hfm]

lemma fillTransferringRow_isSome (r : NormRow) :
    (fillTransferringRow r).transferringEntity_id.isSome = true := by
  simp [fillTransferringRow]

lemma plotArrowsFill_all_some {tbl : List NormRow}
    (h : tbl.any (fun r => r.transferringEntity_id.isNone) = true) :
    ∀ x ∈ plotArrowsFill tbl, x.transferringEntity_id.isSome = true := by
  intro x hx
  unfold plotArrowsFill fillStepTransferring at hx
  rw [if_pos h] at hx
  unfold fillStepAcquiring at hx
  by_cases h2 :
      ((tbl.map fillTransferringRow).any (fun r => r.acquiringEntity_id.isNone)) = true
  · rw [if_pos h2] at hx
    obtain ⟨y, _, rfl⟩ := List.mem_map.mp hx
    exact fillTransferringRow_isSome y
  · rw [if_neg (by simpa using h2)] at hx
    obtain ⟨y, _, rfl⟩ := List.mem_map.mp hx
    exact fillTransferringRow_isSome y

lemma plotArrowsFill_no_nulls {tbl : List NormRow}
    (h : ∀ r ∈ tbl, r.transferringEntity_id.isSome ∧ r.acquiringEntity_id.isSome) :
    plotArrowsFill tbl = tbl := by
  have h1 : tbl.any (fun r => r.transferringEntity_id.isNone) = false := by
    rw [List.any_eq_false]
    intro r hr
    simp only [Option.isNone_iff_eq_none]
    exact Option.isSome_iff_ne_none.mp (h r hr).1
  have h2 : tbl.any (fun r => r.acquiringEntity_id.isNone) = false := by
    rw [List.any_eq_false]
    intro r hr
    simp only [Option.isNone_iff_eq_none]
    exact Option.isSome_iff_ne_none.mp (h r hr).2
  have e1 : fillStepTransferring tbl = tbl := by
    unfold fillStepTransferring
    rw [if_neg (by rw [h1]; simp)]
  have e2 : fillStepAcquiring tbl = tbl := by
    unfold fillStepAcquiring
    rw [if_neg (by rw [h2]; simp)]
  rw [plotArrowsFill, e1, e2]

lemma mem_graphNodes_sides {tbl : List NormRow} {node : Option Int}
    (h : node ∈ graphNodes tbl) :
    node ∈ tbl.map (fun r => r.transferringEntity_id)
      ∨ node ∈ tbl.map (fun r => r.acquiringEntity_id) := by
  obtain ⟨r, hr, h⟩ := mem_graphNodes.mp h
  cases h with
  | inl h => exact Or.inl (List.mem_map.mpr ⟨r, hr, h.symm⟩)
  | inr h => exact Or.inr (List.mem_map.mpr ⟨r, hr, h.symm⟩)

lemma pdMemId_some {v : Int} {l : List (Option Int)} :
    pdMemId (some v) l = true ↔ some v ∈ l := by
  unfold pdMemId
  rw [List.any_eq_true]
  constructor
  · rintro ⟨y, hy, hdec⟩
    exact (of_decide_eq_true hdec) ▸ hy
  · intro hv
    exact ⟨some v, hv, by simp⟩

/-- Claim C1 (counterexample): on a table with two rows sharing the ordered
pair `(1, 2)` with amounts 5 and 7, the built edge carries amount 7 (the
last row), not the sum 12: repeated `add_edge` calls on a `DiGraph`
overwrite the `amount` attribute, so the claimed edge-weight additivity
fails. -/
theorem edge_weight_not_sum_counterexample :
    edgeWeight (from_pandas_edgelist [rowE1, rowE2]) (some 1, some 2) = some 7 ∧
    pairAmountSum [rowE1, rowE2] (some 1, some 2) = 12 ∧
    edgeWeight (from_pandas_edgelist [rowE1, rowE2]) (some 1, some 2) ≠
      some (pairAmountSum [rowE1, rowE2] (some 1, some 2)) := by
  decide

/-- Claim C1 (amended): for every normalized table with non-null endpoint
ids, the weight of the built graph edge from `a` to `b` equals the `amount`
of the LAST row whose transferring id is `a` and acquiring id is `b` (rows
with the same ordered pair overwrite one another), not the sum over all
such rows. -/
theorem edge_weight_is_last_amount (tbl : List NormRow)
    (_h : ∀ r ∈ tbl, r.transferringEntity_id.isSome ∧ r.acquiringEntity_id.isSome)
    (k : EdgeKey) :
    edgeWeight (from_pandas_edgelist tbl) k = lastAmount tbl k := by
  have hf := edgeWeight_foldl tbl [] k
  cases hl : lastAmount tbl k with
  | some w =>
    rw [hl] at hf
    simpa [from_pandas_edgelist] using hf
  | none =>
    rw [hl] at hf
    simpa [from_pandas_edgelist, edgeWeight_nil] using hf

/-- Witness for the amended C1 theorem on a concrete two-row table. -/
theorem edge_weight_is_last_amount_witness :
    (∀ r ∈ [rowE1, rowE2],
      r.transferringEntity_id.isSome ∧ r.acquiringEntity_id.isSome) ∧
    edgeWeight (from_pandas_edgelist [rowE1, rowE2]) (some 1, some 2)
      = lastAmount [rowE1, rowE2] (some 1, some 2) :=
  ⟨by decide, edge_weight_is_last_amount [rowE1, rowE2] (by decide) (some 1, some 2)⟩

/-- Claim C2 (counterexample): with an empty (non-None) stored table and
focal id 81, `plot_arrows` raises ValueError (at
`max_width = max(...)` over an empty edge set) instead of rendering a
single-node graph; the node set is empty, so it does not contain the focal
entity; and even on a non-empty table in which the focal entity appears in
no row, the focal entity is not a node and
`list_of_nodes.remove(this_node)` raises ValueError. -/
theorem plot_arrows_empty_counterexample :
    plot_arrows (some []) (some 81) = .error .valueError ∧
    ¬ ((some 81 : Option Int) ∈ graphNodes ([] : List NormRow)) ∧
    plot_arrows (some [mkNormRow (some 1) (some 2) 5]) (some 81) = .error .valueError := by
  decide

/-- Claim C2 (amended): when the stored table is `None`, `plot_arrows`
returns early without building any graph; when the stored table is empty,
it raises ValueError (rendering does not succeed); and the nodes of the
built graph are exactly the entity ids appearing as an endpoint of some
row, so the focal entity is a node only when it appears in some row. -/
theorem plot_arrows_degenerate_behaviour :
    (∀ focal, plot_arrows none focal = .ok .noTable) ∧
    (∀ focal, plot_arrows (some []) focal = .error .valueError) ∧
    (∀ (tbl : List NormRow) (node : Option Int),
      node ∈ graphNodes tbl ↔ ∃ r, r ∈ tbl ∧
        (node = r.transferringEntity_id ∨ node = r.acquiringEntity_id)) :=
  ⟨fun _ => rfl, fun _ => rfl, fun _ _ => mem_graphNodes⟩

/-- Claim C3 (counterexample): with one account whose holder id 5 does not
exist in the (non-empty) holder repository, `map_account_to_accountHolder`
returns the empty mapping: the pandas merge defaults to an inner join, so
the account is silently dropped and no IntegrityError (or any error) is
raised. -/
theorem mapping_silently_drops_counterexample :
    map_account_to_accountHolder
      [{ id := 1, name := some "n", accountHolder_id := some 5,
         companyRegistrationNumber := none }]
      [{ id := 6, name := some "G" }] = .ok [] := by
  decide

/-- Claim C3 (amended): whenever the mapping build returns (the holder
repository is non-empty; an empty one raises KeyError at the merge, still
not IntegrityError), the merge is an inner join: every produced mapping row
has its holder id present in the holder repository, and an account whose
holder id is absent contributes no row, silently, rather than failing with
IntegrityError. -/
theorem mapping_rows_have_existing_holder (accounts : List AccountRec)
    (holders : List HolderRec) (rows : List MappingRow)
    (h : map_account_to_accountHolder accounts holders = .ok rows) :
    ∀ row ∈ rows, ∃ hr ∈ holders, hr.id = row.accountHolder_id := by
  unfold map_account_to_accountHolder at h
  by_cases he : holders.isEmpty = true
  · rw [if_pos he] at h
    exact absurd h (by simp)
  · rw [if_neg he] at h
    injection h with h
    subst h
    intro row hrow
    obtain ⟨p, hp, hrow⟩ := List.mem_flatMap.mp hrow
    obtain ⟨hr, hhr, rfl⟩ := List.mem_map.mp hrow
    obtain ⟨hmem, heq⟩ := List.mem_filter.mp hhr
    exact ⟨hr, hmem, of_decide_eq_true heq⟩

/-- Witness for the amended C3 theorem on a concrete account and holder. -/
theorem mapping_rows_have_existing_holder_witness :
    map_account_to_accountHolder accW3 holdW3 = .ok [rowW3] ∧
    rowW3 ∈ [rowW3] ∧
    ∃ hr ∈ holdW3, hr.id = rowW3.accountHolder_id :=
  ⟨rfl, by decide,
   mapping_rows_have_existing_holder accW3 holdW3 [rowW3] rfl rowW3 (by decide)⟩

/-- Claim C4 (counterexample): for kind Company, `get_transactions` on one
account with one raw transaction row succeeds and stores the raw
account-level row unchanged (the Company branch of the dispatch is `pass`);
it does not fail with NotImplemented. -/
theorem company_passthrough_counterexample :
    get_transactions .Company [some [txRowW]] [] = .ok (some (.accountRows [txRowW])) := by
  decide

/-- Claim C4 (amended): for every entity of kind Company, whenever the
concatenation of the per-account tables succeeds, the aggregation step
silently passes the raw account-level rows through as the stored result;
no NotImplemented (or any other error) is raised. -/
theorem company_passes_raw_rows (tables : List (Option (List TxRow)))
    (m : List MappingRow) (rows : List TxRow) (h : pd_concat tables = .ok rows) :
    get_transactions .Company tables m = .ok (some (.accountRows rows)) := by
  have hcond : ¬ (tables.length = 1 ∧ tables.head? = some none) := by
    rintro ⟨h1, h2⟩
    obtain ⟨a, rfl⟩ := List.length_eq_one.mp h1
    have ha : a = none := by simpa using h2
    subst ha
    have hpc : pd_concat [none] = (.error .valueError : Except PyError (List TxRow)) := rfl
    rw [hpc] at h
    exact Except.noConfusion h
  unfold get_transactions
  rw [if_neg hcond, h]

/-- Witness for the amended C4 theorem on one account with one row. -/
theorem company_passes_raw_rows_witness :
    pd_concat [some [txRowW]] = .ok [txRowW] ∧
    get_transactions .Company [some [txRowW]] [] = .ok (some (.accountRows [txRowW])) :=
  ⟨rfl, company_passes_raw_rows [some [txRowW]] [] [txRowW] rfl⟩

/-- Claim C5 (counterexample): with two accounts that both report no
transactions (and likewise with zero accounts), `get_transactions` raises
ValueError from `pd.concat` instead of returning the empty result: the
early return only covers the single-account case. -/
theorem all_none_two_accounts_counterexample :
    get_transactions .Account [none, none] [] = .error .valueError ∧
    get_transactions .Account [] [] = .error .valueError := by
  decide

/-- Claim C5 (amended): when every account reports no transactions, the
aggregation step returns with the stored table still empty (`None`) only
when there is exactly one account; with zero accounts or with two or more
accounts, `pd.concat` raises ValueError. -/
theorem no_transactions_behaviour (et : EntityType) (m : List MappingRow)
    (tables : List (Option (List TxRow)))
    (h : tables.all (fun t => t.isNone) = true) :
    (tables.length = 1 → get_transactions et tables m = .ok none) ∧
    (tables.length ≠ 1 → get_transactions et tables m = .error .valueError) := by
  constructor
  · intro h1
    obtain ⟨a, rfl⟩ := List.length_eq_one.mp h1
    have ha : a = none := Option.isNone_iff_eq_none.mp (List.all_eq_true.mp h a (by simp))
    subst ha
    rfl
  · intro hne
    have hcond : ¬ (tables.length = 1 ∧ tables.head? = some none) := fun hc => hne hc.1
    unfold get_transactions
    rw [if_neg hcond, pd_concat_all_none h]

/-- Witness for the amended C5 theorem: one all-None account returns the
empty result; two all-None accounts raise ValueError. -/
theorem no_transactions_behaviour_witness :
    (([(none : Option (List TxRow))].all (fun t => t.isNone)) = true) ∧
    get_transactions .Account [none] [] = .ok none ∧
    ((([none, none] : List (Option (List TxRow))).all (fun t => t.isNone)) = true) ∧
    get_transactions .Account [none, none] [] = .error .valueError :=
  ⟨by decide,
   (no_transactions_behaviour .Account [] [none] (by decide)).1 (by decide),
   by decide,
   (no_transactions_behaviour .Account [] [none, none] (by decide)).2 (by decide)⟩

/-- Claim C6 (counterexample): with an empty repository, resolving kind
Account raises IndexError (from `self.accounts[0]`) and resolving kind
AccountHolder raises AttributeError (from `.first().name` on `None`);
neither failure is the NotFoundError of the design document's taxonomy. -/
theorem resolution_error_kind_counterexample :
    get_accounts .Account (.int 7) [] [] = .error .indexError ∧
    get_accounts .AccountHolder (.int 7) [] [] = .error .attributeError ∧
    PyError.indexError ≠ PyError.notFoundError ∧
    PyError.attributeError ≠ PyError.notFoundError := by
  decide

/-- Claim C6 (amended): entity resolution does fail when the requested id
matches nothing, but with IndexError for kind Account (zero accounts have
that id) and AttributeError for kind AccountHolder (no holder with that id
exists), not with a dedicated NotFoundError. -/
theorem resolution_missing_id_errors (eid : EntityIdVal)
    (accounts : List AccountRec) (holders : List HolderRec) :
    (accounts.filter (fun a => decide (eid = EntityIdVal.int a.id)) = [] →
      get_accounts .Account eid accounts holders = .error .indexError) ∧
    (holders.find? (fun hr => decide (eid = EntityIdVal.int hr.id)) = none →
      get_accounts .AccountHolder eid accounts holders = .error .attributeError) := by
  constructor
  · intro h
    unfold get_accounts
    rw [h]
  · intro h
    unfold get_accounts
    rw [h]

/-- Witness for the amended C6 theorem on an empty repository. -/
theorem resolution_missing_id_errors_witness :
    (([] : List AccountRec).filter
        (fun a => decide (EntityIdVal.int 7 = EntityIdVal.int a.id)) = []) ∧
    get_accounts .Account (.int 7) [] [] = .error .indexError ∧
    (([] : List HolderRec).find?
        (fun hr => decide (EntityIdVal.int 7 = EntityIdVal.int hr.id)) = none) ∧
    get_accounts .AccountHolder (.int 7) [] [] = .error .attributeError :=
  ⟨rfl, (resolution_missing_id_errors (.int 7) [] []).1 rfl, rfl,
   (resolution_missing_id_errors (.int 7) [] []).2 rfl⟩

/-- Claim C7 (code bug, evaluated at the failing input): on a table whose
single row has a null acquiring entity id, the acquiring-side iteration of
the missing-value loop fires (so the "replacing by -1/unknown" warning is
emitted), yet after the whole fill the acquiring entity id is still null:
the `fillval` dict passed to `fillna` names only the transferring-side
columns, for both iterations of the loop over sides. -/
theorem acquiring_null_not_filled :
    (([rowNullA].any (fun r => r.acquiringEntity_id.isNone)) = true) ∧
    ((fillStepTransferring [rowNullA]).any (fun r => r.acquiringEntity_id.isNone)) = true ∧
    (plotArrowsFill [rowNullA]).map (fun r => r.acquiringEntity_id) = [none] := by
  decide

/-- Claim C8 (confirmed): whenever the AccountHolder re-keying succeeds
(both merge assertions pass), no row of the normalized output has its
transferring entity id equal to its acquiring entity id: transactions whose
two endpoints resolve to the same holder are filtered out before the table
is stored. -/
theorem holder_no_self_trades (tbl : List TxRow) (m : List MappingRow)
    (out : List NormRow) (h : rekeyAccountHolder tbl m = .ok out) :
    ∀ r ∈ out, r.transferringEntity_id ≠ r.acquiringEntity_id := by
  unfold rekeyAccountHolder at h
  by_cases h1 : ((mergeBoth tbl m).all (fun q => q.mt.isSome)) = true
  case neg =>
    rw [if_neg (by simpa using h1)] at h
    exact absurd h (by simp)
  rw [if_pos h1] at h
  by_cases h2 : ((mergeBoth tbl m).all (fun q => q.ma.isSome)) = true
  case neg =>
    rw [if_neg (by simpa using h2)] at h
    exact absurd h (by simp)
  rw [if_pos h2] at h
  injection h with h
  subst h
  intro r hr
  obtain ⟨hmem, hne⟩ := List.mem_filter.mp hr
  obtain ⟨q, hq, rfl⟩ := List.mem_map.mp hmem
  obtain ⟨mt, hmt⟩ := Option.isSome_iff_exists.mp (List.all_eq_true.mp h1 q hq)
  obtain ⟨ma, hma⟩ := Option.isSome_iff_exists.mp (List.all_eq_true.mp h2 q hq)
  simp only [toNormHolder, hmt, hma, Option.map_some'] at hne ⊢
  simp only [pdNe] at hne
  have hd : ma.accountHolder_id ≠ mt.accountHolder_id := of_decide_eq_true hne
  intro hc
  exact hd (by injection hc with hc; exact hc.symm)

/-- Witness for the C8 theorem on a concrete table and mapping. -/
theorem holder_no_self_trades_witness :
    rekeyAccountHolder [txRowW] mapW = .ok [nW] ∧
    nW ∈ [nW] ∧
    nW.transferringEntity_id ≠ nW.acquiringEntity_id :=
  ⟨rfl, by decide, holder_no_self_trades [txRowW] mapW [nW] rfl nW (by decide)⟩

/-- Claim C9 (counterexample): on the table with the single row from entity
1 to a null (NaN) acquiring entity — reachable, since the fill loop never
fills acquiring-side nulls — the NaN node is a node of the built graph, is
not the focal node, and yet is assigned no role at all: a NaN node belongs
to neither side's set (`NaN != NaN`), so the `elif` chain leaves
`trader_type` unset and `plot_arrows` then raises KeyError at the
`attrs[n]['trader_type']` comprehension.  The claimed role exclusivity for
every non-focal node therefore fails. -/
theorem role_unassigned_counterexample :
    (none : Option Int) ∈ graphNodes (plotArrowsFill [rowNullA]) ∧
    (none : Option Int) ≠ some 1 ∧
    traderType (plotArrowsFill [rowNullA]) (some 1) none = none ∧
    plot_arrows (some [rowNullA]) (some 1) = .error .keyError := by
  decide

/-- Claim C9 (amended): every node of the built graph with a non-null id
that is not the focal entity is classified as exactly one of sender,
receiver or trader: trader exactly when its id occurs on both the
transferring and the acquiring side, sender exactly when only on the
transferring side, receiver exactly when only on the acquiring side; and
the focal entity's node always gets role `this`, overriding the side-based
classification.  (A null-id node gets no role and later causes KeyError.) -/
theorem node_role_classification (tbl : List NormRow) (focal node : Option Int)
    (h : node ∈ graphNodes tbl) (hn : node.isSome = true) :
    (node = focal → traderType tbl focal node = some "this") ∧
    (node ≠ focal →
      (traderType tbl focal node = some "sender" ∨
       traderType tbl focal node = some "receiver" ∨
       traderType tbl focal node = some "trader") ∧
      (traderType tbl focal node = some "trader" ↔
        node ∈ tbl.map (fun r => r.transferringEntity_id) ∧
        node ∈ tbl.map (fun r => r.acquiringEntity_id)) ∧
      (traderType tbl focal node = some "sender" ↔
        node ∈ tbl.map (fun r => r.transferringEntity_id) ∧
        node ∉ tbl.map (fun r => r.acquiringEntity_id)) ∧
      (traderType tbl focal node = some "receiver" ↔
        node ∉ tbl.map (fun r => r.transferringEntity_id) ∧
        node ∈ tbl.map (fun r => r.acquiringEntity_id))) := by
  obtain ⟨v, rfl⟩ := Option.isSome_iff_exists.mp hn
  constructor
  · intro he
    subst he
    simp [traderType, pdEqId]
  · intro hne
    have hsides := mem_graphNodes_sides h
    have heq : pdEqId (some v) focal = false := by
      cases focal with
      | none => rfl
      | some f =>
        simp only [pdEqId, decide_eq_false_iff_not]
        exact fun hc => hne (by rw [hc])
    simp only [traderType, heq, Bool.false_eq_true, if_false, traderTypeBase]
    by_cases hT : some v ∈ tbl.map (fun r => r.transferringEntity_id)
      <;> by_cases hA : some v ∈ tbl.map (fun r => r.acquiringEntity_id)
    · simp [pdMemId_some.mpr hT, pdMemId_some.mpr hA, hT, hA]
    · have hAf : pdMemId (some v) (tbl.map (fun r => r.acquiringEntity_id)) = false := by
        cases hpm : pdMemId (some v) (tbl.map (fun r => r.acquiringEntity_id)) with
        | false => rfl
        | true => exact absurd (pdMemId_some.mp hpm) hA
      simp [pdMemId_some.mpr hT, hAf, hT, hA]
    · have hTf : pdMemId (some v) (tbl.map (fun r => r.transferringEntity_id)) = false := by
        cases hpm : pdMemId (some v) (tbl.map (fun r => r.transferringEntity_id)) with
        | false => rfl
        | true => exact absurd (pdMemId_some.mp hpm) hT
      simp [pdMemId_some.mpr hA, hTf, hT, hA]
    · exact absurd hsides (by simp [hT, hA])

/-- Witness for the amended C9 theorem: on a one-row table from entity 1 to
entity 2 with focal entity 1, node 2 is a non-null non-focal node and
receives one of the three roles. -/
theorem node_role_classification_witness :
    ((some 2 : Option Int) ∈ graphNodes [mkNormRow (some 1) (some 2) 5]) ∧
    (some 2 : Option Int).isSome = true ∧
    (traderType [mkNormRow (some 1) (some 2) 5] (some 1) (some 2) = some "sender" ∨
     traderType [mkNormRow (some 1) (some 2) 5] (some 1) (some 2) = some "receiver" ∨
     traderType [mkNormRow (some 1) (some 2) 5] (some 1) (some 2) = some "trader") :=
  ⟨by decide, by decide,
   ((node_role_classification [mkNormRow (some 1) (some 2) 5] (some 1) (some 2)
      (by decide) (by decide)).2 (by decide)).1⟩

/-- Claim C10 (confirmed): `plot_arrows` applies the sentinel fill to the
stored table itself (modelled as the state update `plot_arrows_store`): for
every stored table with at least one null transferring-side entity id, the
stored table after the call differs from the one stored before; when no
entity id on either side is null, the stored table is unchanged. -/
theorem plot_arrows_frame_effect (tbl : List NormRow) :
    ((∃ r ∈ tbl, r.transferringEntity_id = none) →
      (plot_arrows_store { transactions := some tbl }).transactions ≠ some tbl) ∧
    ((∀ r ∈ tbl, r.transferringEntity_id.isSome ∧ r.acquiringEntity_id.isSome) →
      plot_arrows_store { transactions := some tbl } = { transactions := some tbl }) := by
  constructor
  · rintro ⟨r, hr, hnone⟩ heq
    have hfill : plotArrowsFill tbl = tbl := by
      simpa [plot_arrows_store] using heq
    have hany : tbl.any (fun r => r.transferringEntity_id.isNone) = true :=
      List.any_eq_true.mpr ⟨r, hr, by simp [hnone]⟩
    have hmem : r ∈ plotArrowsFill tbl := by
      rw [hfill]
      exact hr
    have hsome := plotArrowsFill_all_some hany r hmem
    rw [hnone] at hsome
    simp at hsome
  · intro h
    simp [plot_arrows_store, plotArrowsFill_no_nulls h]

/-- Witness for the C10 theorem: a one-row table with a null transferring
id is changed by the call; a one-row table with no null ids is not. -/
theorem plot_arrows_frame_effect_witness :
    ((plot_arrows_store { transactions := some [rowNullT] }).transactions
        ≠ some [rowNullT]) ∧
    (plot_arrows_store { transactions := some [mkNormRow (some 1) (some 2) 5] }
        = { transactions := some [mkNormRow (some 1) (some 2) 5] }) :=
  ⟨(plot_arrows_frame_effect [rowNullT]).1 ⟨rowNullT, by decide, rfl⟩,
   (plot_arrows_frame_effect [mkNormRow (some 1) (some 2) 5]).2 (by decide)⟩
